import Mathlib

/-!
Shallow embedding of the facial photo capture client (`app.js`) and its
offline cache worker (`sw.js`).

Pure geometry is modelled over `ℚ` (the browser computes these values with
exact-enough floating point; the formulas themselves are field expressions).
DOM, media and network side effects are modelled as explicit effect traces;
fallible operations take their environment (HTTP response, cache contents,
network result) as parameters.
-/

namespace FaceCapture

/-! ## Capture geometry (`capturePhoto`, app.js:205-294) -/

/-- `this.ellipseWidth` (app.js:33): width of the elliptical crop / output canvas. -/
def ellipseWidth : ℚ := 307

/-- `this.ellipseHeight` (app.js:34): height of the elliptical crop / output canvas. -/
def ellipseHeight : ℚ := 407

/-- The cover-fit visible sub-rectangle of the video frame, as computed in
`capturePhoto` (app.js:221-234). -/
structure CoverRect where
  drawWidth : ℚ
  drawHeight : ℚ
  offsetX : ℚ
  offsetY : ℚ
  deriving DecidableEq

/-- Cover-fit geometry of `capturePhoto` (app.js:216-234): the sub-rectangle of a
`(Vw, Vh)` video frame that is visible when rendered with cover fit inside a
`(Cw, Ch)` container. -/
def coverFit (Vw Vh Cw Ch : ℚ) : CoverRect :=
  let videoAspect := Vw / Vh
  let containerAspect := Cw / Ch
  if videoAspect > containerAspect then
    let drawHeight := Vh
    let drawWidth := drawHeight * containerAspect
    { drawWidth := drawWidth, drawHeight := drawHeight
      offsetX := (Vw - drawWidth) / 2, offsetY := 0 }
  else
    let drawWidth := Vw
    let drawHeight := drawWidth / containerAspect
    { drawWidth := drawWidth, drawHeight := drawHeight
      offsetX := 0, offsetY := (Vh - drawHeight) / 2 }

/-- Source rectangle handed to `ctx.drawImage` (app.js:268-279). -/
structure SrcRect where
  sx : ℚ
  sy : ℚ
  sw : ℚ
  sh : ℚ
  deriving DecidableEq

/-- The video-native source rectangle drawn into the output canvas
(app.js:236-246 and 268-279), including the no-op
`(videoRect.width / videoRect.width)` factors present in the source. -/
def captureSrc (Vw Vh Cw Ch : ℚ) : SrcRect :=
  let r := coverFit Vw Vh Cw Ch
  let scaleX := r.drawWidth / Cw
  let scaleY := r.drawHeight / Ch
  let ellipseCenterX := r.drawWidth / 2
  let ellipseCenterY := r.drawHeight / 2
  let ellipseRadiusX := (ellipseWidth / 2) * (Cw / Cw) * scaleX
  let ellipseRadiusY := (ellipseHeight / 2) * (Ch / Ch) * scaleY
  { sx := r.offsetX + ellipseCenterX - ellipseRadiusX
    sy := r.offsetY + ellipseCenterY - ellipseRadiusY
    sw := ellipseRadiusX * 2
    sh := ellipseRadiusY * 2 }

/-- Observable effects of one `capturePhoto` call, in program order. -/
inductive CaptureEffect where
  | alert (msg : String)
  | disableCapture
  | showLoadingMsg (msg : String)
  | setCanvasSize (w h : ℚ)
  | clipEllipse (cx cy rx ry : ℚ)
  | clearCanvas
  | drawImage (src : SrcRect) (dx dy dw dh : ℚ)
  | toBlobAndAnalyze
  deriving DecidableEq

/-- Alert text at app.js:207. -/
def notReadyMsg : String := "Câmera não está pronta. Aguarde um momento."

/-- Loading text at app.js:213. -/
def capturingMsg : String := "Capturando e recortando foto..."

/-- Effect trace of `capturePhoto` (app.js:205-294) on a video with native
resolution `(Vw, Vh)` displayed in a container of size `(Cw, Ch)`.  The guard
mirrors `!videoWidth || !videoHeight` (app.js:206): a zero dimension aborts
before any geometry or canvas work. -/
def capturePhoto (Vw Vh Cw Ch : ℚ) : List CaptureEffect :=
  if Vw = 0 ∨ Vh = 0 then
    [.alert notReadyMsg]
  else
    [ .disableCapture
    , .showLoadingMsg capturingMsg
    , .setCanvasSize ellipseWidth ellipseHeight
    , .clipEllipse (ellipseWidth / 2) (ellipseHeight / 2) (ellipseWidth / 2) (ellipseHeight / 2)
    , .clearCanvas
    , .drawImage (captureSrc Vw Vh Cw Ch) 0 0 ellipseWidth ellipseHeight
    , .toBlobAndAnalyze ]

/-! ## Upload and result flow (`analyzePhoto`, app.js:300-351) -/

/-- Body of the `/upload` HTTP response, as the client distinguishes it:
either it parses as JSON (with an optional `erro` field; `stringified` is
`JSON.stringify` of the parsed object, used at app.js:327 when no `erro`
field exists), or it is raw non-JSON text. -/
inductive ResponseBody where
  | jsonBody (erro : Option String) (stringified : String)
  | rawText (raw : String)
  deriving DecidableEq

structure HttpResponse where
  status : Nat
  body : ResponseBody
  deriving DecidableEq

/-- `response.ok`: HTTP status in [200, 300). -/
def respOk (r : HttpResponse) : Bool :=
  decide (200 ≤ r.status) && decide (r.status < 300)

/-- `errorDetails` extraction on a non-success response (app.js:324-328):
the JSON `erro` field, else `JSON.stringify` of the parsed JSON, else the raw
body text. -/
def errorDetails : ResponseBody → String
  | .jsonBody (some e) _ => e
  | .jsonBody none s => s
  | .rawText raw => raw

/-- The explicit service error field (`result.erro`, app.js:335). -/
def erroOf : ResponseBody → Option String
  | .jsonBody e _ => e
  | .rawText _ => none

def isJsonBody : ResponseBody → Bool
  | .jsonBody _ _ => true
  | .rawText _ => false

/-- Observable effects of one `analyzePhoto` call. -/
inductive UploadEffect where
  | alert (msg : String)
  | postUpload
  | showFullResults
  | showPreviewView
  deriving DecidableEq

/-- Alert text at app.js:304. -/
def apiUnavailableMsg : String := "API de análise não está disponível. Verifique a conexão."

/-- Alert template at app.js:344 (`Erro na análise: ${error.message}`). -/
def analysisErrorHead : String := "Erro na análise: "

/-- Error template at app.js:330. -/
def httpFailHead (status : Nat) : String :=
  "Falha na comunicação com a API (HTTP " ++ toString status ++ "): "

/-- Stand-in for the `SyntaxError` message thrown by `response.json()`
(app.js:333) when a success response body is not JSON; by the service
contract (§6 of the spec) success responses are JSON, so this case is
outside the verified envelope. -/
def jsonParseFailureMsg : String := "SyntaxError: unexpected response body"

/-- Effect trace of `analyzePhoto` (app.js:300-351), parameterised by the
discovered endpoint (`this.apiUrl`) and the HTTP response the single
`fetch` would produce. -/
def analyzePhoto (apiUrl : Option String) (resp : HttpResponse) : List UploadEffect :=
  match apiUrl with
  | none => [.alert apiUnavailableMsg]
  | some _ =>
    .postUpload ::
      (if respOk resp then
        match resp.body with
        | .jsonBody (some e) _ =>
            [.alert (analysisErrorHead ++ e), .showPreviewView]
        | .jsonBody none _ => [.showFullResults]
        | .rawText _ =>
            [.alert (analysisErrorHead ++ jsonParseFailureMsg), .showPreviewView]
      else
        [.alert (analysisErrorHead ++ httpFailHead resp.status ++ errorDetails resp.body),
          .showPreviewView])

/-- The attempt is a failure: non-success status, or success body carrying an
explicit `erro` field (app.js:322, 335). -/
def uploadFailed (resp : HttpResponse) : Bool :=
  !respOk resp || (erroOf resp.body).isSome

/-- The error message the code extracts for a failed attempt: the `erro`
field of a success response, or `errorDetails` of a non-success response. -/
def extractedErrorMsg (resp : HttpResponse) : String :=
  if respOk resp then (erroOf resp.body).getD jsonParseFailureMsg
  else errorDetails resp.body

def isPost : UploadEffect → Bool
  | .postUpload => true
  | _ => false

/-- Number of multipart POSTs in an `analyzePhoto` effect trace. -/
def postCount (l : List UploadEffect) : Nat := (l.filter isPost).length

/-! ## Camera lifecycle (`initCamera` app.js:156-181, `switchCamera` app.js:193-196) -/

structure Track where
  id : Nat
  stopped : Bool
  deriving DecidableEq

structure CamState where
  currentStream : Option (List Track)
  facingMode : String
  deriving DecidableEq

/-- Observable camera actions, in program order. -/
inductive CamAction where
  | stopTrack (id : Nat)
  | clearStreamRef
  | requestStream (mode : String)
  deriving DecidableEq

def userMode : String := "user"

def envMode : String := "environment"

/-- `switchCamera` facing-mode flip (app.js:194). -/
def flipFacing (m : String) : String := if m = userMode then envMode else userMode

/-- Action trace of `initCamera` (app.js:156-172): stop every track of the
current stream and clear the reference (app.js:157-161), then request a new
stream with the current facing mode (app.js:172). -/
def initCameraTrace (s : CamState) : List CamAction :=
  (match s.currentStream with
   | some tracks => tracks.map (fun t => .stopTrack t.id) ++ [.clearStreamRef]
   | none => []) ++ [.requestStream s.facingMode]

/-- Action trace of `switchCamera` (app.js:193-196): flip the facing mode,
then run `initCamera`. -/
def switchCameraTrace (s : CamState) : List CamAction :=
  initCameraTrace { s with facingMode := flipFacing s.facingMode }

/-- `track.stop()` applied to every track of the old stream. -/
def stopAll (tracks : List Track) : List Track :=
  tracks.map (fun t => { t with stopped := true })

/-! ## Offline cache worker (`sw.js`) -/

/-- `CACHE_NAME` (sw.js:1). -/
def CACHE_NAME : String := "face-capture-v2"

/-- `STATIC_CACHE` (sw.js:2-11). -/
def STATIC_CACHE : List String :=
  ["/", "/index.html", "/style.css", "/app.js", "/manifest.json", "/icons/icon-512x512.png"]

/-- `OFFLINE_URL` (sw.js:13). -/
def OFFLINE_URL : String := "/index.html"

/-- The upload endpoint path fragment checked at sw.js:53. -/
def uploadPath : String := "/upload"

def getMethod : String := "GET"

structure SWResponse where
  status : Nat
  deriving DecidableEq

structure SWRequest where
  method : String
  url : String
  origin : String
  deriving DecidableEq

inductive NetworkResult where
  | ok (r : SWResponse)
  | failure
  deriving DecidableEq

inductive FetchOutcome where
  | passThrough
  | respond (r : SWResponse)
  | fallback (r : Option SWResponse)
  deriving DecidableEq

/-- Result of one fetch interception: the outcome handed to the page, and the
`(store, url, response)` written by the write-through `cache.put`
(sw.js:71-76), if any. -/
structure FetchResult where
  outcome : FetchOutcome
  cachePut : Option (String × String × SWResponse)
  deriving DecidableEq

def charsStartWith : List Char → List Char → Bool
  | [], _ => true
  | _ :: _, [] => false
  | p :: ps, c :: cs => decide (p = c) && charsStartWith ps cs

def charsContain (pat : List Char) : List Char → Bool
  | [] => charsStartWith pat []
  | c :: cs => charsStartWith pat (c :: cs) || charsContain pat cs

/-- `String.includes` of JavaScript: substring containment (sw.js:53). -/
def containsSubstr (s pat : String) : Bool := charsContain pat.data s.data

/-- The fetch listener (sw.js:47-87).  `cacheMatch` models `caches.match`,
`net` the network fetch that would run on a cache miss.  Pass-through when the
request is not GET, hits the upload path, or is cross-origin (sw.js:52-57);
otherwise cache-first (sw.js:60-64), with write-through of status-200 network
responses into the `CACHE_NAME` store (sw.js:71-76) and offline fallback to
`caches.match(OFFLINE_URL)` on network failure (sw.js:80-84). -/
def handleFetch (locOrigin : String) (cacheMatch : String → Option SWResponse)
    (req : SWRequest) (net : NetworkResult) : FetchResult :=
  if req.method ≠ getMethod ∨ containsSubstr req.url uploadPath = true ∨ req.origin ≠ locOrigin then
    { outcome := .passThrough, cachePut := none }
  else
    match cacheMatch req.url with
    | some r => { outcome := .respond r, cachePut := none }
    | none =>
      match net with
      | .ok r =>
          { outcome := .respond r
            cachePut := if r.status = 200 then some (CACHE_NAME, req.url, r) else none }
      | .failure => { outcome := .fallback (cacheMatch OFFLINE_URL), cachePut := none }

/-- The interception guard of sw.js:52-57, stated positively. -/
def intercepted (locOrigin : String) (req : SWRequest) : Prop :=
  req.method = getMethod ∧ containsSubstr req.url uploadPath = false ∧ req.origin = locOrigin

/-- Cache stores surviving the activate handler (sw.js:30-44): every name
other than `CACHE_NAME` is deleted. -/
def activateRemaining (names : List String) : List String :=
  names.filter (fun n => n == CACHE_NAME)

/-- Cache stores deleted by the activate handler (sw.js:36). -/
def activateDeletes (names : List String) : List String :=
  names.filter (fun n => n != CACHE_NAME)

/-- `(store, url)` writes of the install handler (sw.js:16-27): every static
asset goes into the `CACHE_NAME` store. -/
def installPuts : List (String × String) := STATIC_CACHE.map (fun u => (CACHE_NAME, u))

/-! ## Object-URL lifecycle of the result views
(`showAnalysisResults` app.js:380-445, `showPreview` app.js:527-559) -/

/-- Per-view state for one object URL: whether its owning view is still
visible, and how many times the URL has been revoked. -/
structure ViewState where
  visible : Bool
  revoked : Nat
  deriving DecidableEq

inductive ViewClick where
  | close
  | retake
  | download
  deriving DecidableEq

/-- Button semantics of the full analysis view (app.js:433-437): `close` and
`retake` both run `_hideAnalysisContainer` (hide + revoke, app.js:465-468);
`download` only reuses the URL.  A hidden container (`.hidden`,
`display: none`) receives no clicks, so events on a dismissed view are
no-ops. -/
def analysisViewStep (s : ViewState) (e : ViewClick) : ViewState :=
  if s.visible then
    match e with
    | .close => { visible := false, revoked := s.revoked + 1 }
    | .retake => { visible := false, revoked := s.revoked + 1 }
    | .download => s
  else s

/-- Button semantics of the minimal preview view (app.js:542-552): `retake`
hides the view and revokes the URL; `download` only reuses it; the preview
has no close button. -/
def previewViewStep (s : ViewState) (e : ViewClick) : ViewState :=
  if s.visible then
    match e with
    | .retake => { visible := false, revoked := s.revoked + 1 }
    | .close => s
    | .download => s
  else s

/-- A view starts visible with its freshly created object URL unrevoked
(app.js:383, 538). -/
def runView (step : ViewState → ViewClick → ViewState) (es : List ViewClick) : ViewState :=
  es.foldl step { visible := true, revoked := 0 }

/-! ## Download file names -/

def analiseFacialHead : String := "analise-facial-"

def faceCaptureHead : String := "face-capture-"

def pngExt : String := ".png"

def txtExt : String := ".txt"

/-- File name of the full result view's download button (`_downloadImage`,
app.js:477). -/
def downloadImageName (nowMs : Nat) : String := analiseFacialHead ++ toString nowMs ++ pngExt

/-- File name of the text report (`saveAnalysisData`, app.js:515). -/
def saveReportName (nowMs : Nat) : String := analiseFacialHead ++ toString nowMs ++ txtExt

/-- File name of the minimal preview's download button (`showPreview`,
app.js:545). -/
def previewDownloadName (nowMs : Nat) : String := faceCaptureHead ++ toString nowMs ++ pngExt

/-! ## Constructor guard (app.js:19-38) -/

inductive InitEffect where
  | consoleError (msg : String)
  | attachListeners
  | registerServiceWorker
  | detectApiUrl
  deriving DecidableEq

/-- Console message at app.js:21. -/
def missingDomMsg : String := "Elementos DOM \x27video\x27 e \x27canvas\x27 são obrigatórios."

/-- Effects of the `FaceCaptureApp` constructor (app.js:8-38): if either
required DOM element is missing it logs and returns (app.js:20-23); otherwise
`init` (app.js:43-48) attaches listeners, registers the service worker and
probes the API health endpoint. -/
def constructorEffects (hasVideo hasCanvas : Bool) : List InitEffect :=
  if !hasVideo || !hasCanvas then [.consoleError missingDomMsg]
  else [.attachListeners, .registerServiceWorker, .detectApiUrl]

/-! ## Theorems -/

/-- C1: for a capture with nonzero video resolution `(Vw, Vh)` and container
`(Cw, Ch)`, the cover-fit visible rectangle satisfies: if `Vw/Vh > Cw/Ch` then
`drawHeight = Vh`, `drawWidth = Vh * (Cw/Ch)`, horizontally centered with
`offsetY = 0`; otherwise `drawWidth = Vw`, `drawHeight = Vw / (Cw/Ch)`,
vertically centered with `offsetX = 0`; in either case the rectangle has the
container's aspect ratio and is centered on at least one axis. -/
theorem coverFit_cover_centered (Vw Vh Cw Ch : ℚ)
    (hVw : 0 < Vw) (hVh : 0 < Vh) (hCw : 0 < Cw) (hCh : 0 < Ch) :
    (Vw / Vh > Cw / Ch →
      (coverFit Vw Vh Cw Ch).drawHeight = Vh ∧
      (coverFit Vw Vh Cw Ch).drawWidth = Vh * (Cw / Ch) ∧
      (coverFit Vw Vh Cw Ch).offsetX = (Vw - (coverFit Vw Vh Cw Ch).drawWidth) / 2 ∧
      (coverFit Vw Vh Cw Ch).offsetY = 0) ∧
    (¬(Vw / Vh > Cw / Ch) →
      (coverFit Vw Vh Cw Ch).drawWidth = Vw ∧
      (coverFit Vw Vh Cw Ch).drawHeight = Vw / (Cw / Ch) ∧
      (coverFit Vw Vh Cw Ch).offsetY = (Vh - (coverFit Vw Vh Cw Ch).drawHeight) / 2 ∧
      (coverFit Vw Vh Cw Ch).offsetX = 0) ∧
    (coverFit Vw Vh Cw Ch).drawWidth * Ch = (coverFit Vw Vh Cw Ch).drawHeight * Cw ∧
    (((coverFit Vw Vh Cw Ch).offsetX = (Vw - (coverFit Vw Vh Cw Ch).drawWidth) / 2 ∧
        (coverFit Vw Vh Cw Ch).offsetY = 0) ∨
      ((coverFit Vw Vh Cw Ch).offsetY = (Vh - (coverFit Vw Vh Cw Ch).drawHeight) / 2 ∧
        (coverFit Vw Vh Cw Ch).offsetX = 0)) := by
  by_cases h : Vw / Vh > Cw / Ch
  · have hc : coverFit Vw Vh Cw Ch =
        { drawWidth := Vh * (Cw / Ch), drawHeight := Vh
          offsetX := (Vw - Vh * (Cw / Ch)) / 2, offsetY := 0 } := by
      simp [coverFit, h]
    refine ⟨fun _ => ?_, fun hc2 => absurd h hc2, ?_, ?_⟩
    · simp [hc]
    · rw [hc]
      field_simp
    · left
      simp [hc]
  · have hc : coverFit Vw Vh Cw Ch =
        { drawWidth := Vw, drawHeight := Vw / (Cw / Ch)
          offsetX := 0, offsetY := (Vh - Vw / (Cw / Ch)) / 2 } := by
      simp [coverFit, h]
    refine ⟨fun h2 => absurd h2 h, fun _ => ?_, ?_, ?_⟩
    · simp [hc]
    · rw [hc]
      field_simp
    · right
      simp [hc]

/-- Witness for C1 at `(Vw, Vh, Cw, Ch) = (16, 9, 4, 3)`: the visible
rectangle has the container's 4:3 aspect ratio. -/
theorem coverFit_cover_centered_witness :
    (coverFit 16 9 4 3).drawWidth * 3 = (coverFit 16 9 4 3).drawHeight * 4 :=
  (coverFit_cover_centered 16 9 4 3 (by norm_num) (by norm_num) (by norm_num)
    (by norm_num)).2.2.1

/-- C2: when the readiness check passes, `capturePhoto` sets the output canvas
to exactly 307×407 before drawing and applies the elliptical clip inscribed in
that canvas, center `(307/2, 407/2)`, radii `307/2` and `407/2`, regardless of
video resolution and container size. -/
theorem capturePhoto_canvas_and_clip_fixed (Vw Vh Cw Ch : ℚ)
    (h : ¬(Vw = 0 ∨ Vh = 0)) :
    capturePhoto Vw Vh Cw Ch =
      [ .disableCapture
      , .showLoadingMsg capturingMsg
      , .setCanvasSize 307 407
      , .clipEllipse (307 / 2) (407 / 2) (307 / 2) (407 / 2)
      , .clearCanvas
      , .drawImage (captureSrc Vw Vh Cw Ch) 0 0 307 407
      , .toBlobAndAnalyze ] := by
  simp [capturePhoto, h, ellipseWidth, ellipseHeight]

/-- Witness for C2 at a 1280×720 video in a 360×640 container. -/
theorem capturePhoto_canvas_and_clip_fixed_witness :
    capturePhoto 1280 720 360 640 =
      [ .disableCapture
      , .showLoadingMsg capturingMsg
      , .setCanvasSize 307 407
      , .clipEllipse (307 / 2) (407 / 2) (307 / 2) (407 / 2)
      , .clearCanvas
      , .drawImage (captureSrc 1280 720 360 640) 0 0 307 407
      , .toBlobAndAnalyze ] :=
  capturePhoto_canvas_and_clip_fixed 1280 720 360 640 (by norm_num)

/-- C3: if the video has not reported nonzero native dimensions, the capture
aborts immediately with the camera-not-ready alert: no canvas mutation, no
drawing, and no upload is attempted. -/
theorem capturePhoto_not_ready_aborts (Vw Vh Cw Ch : ℚ) (h : Vw = 0 ∨ Vh = 0) :
    capturePhoto Vw Vh Cw Ch = [.alert notReadyMsg] ∧
    (∀ w hh, CaptureEffect.setCanvasSize w hh ∉ capturePhoto Vw Vh Cw Ch) ∧
    CaptureEffect.clearCanvas ∉ capturePhoto Vw Vh Cw Ch ∧
    (∀ src dx dy dw dh, CaptureEffect.drawImage src dx dy dw dh ∉ capturePhoto Vw Vh Cw Ch) ∧
    CaptureEffect.toBlobAndAnalyze ∉ capturePhoto Vw Vh Cw Ch := by
  have he : capturePhoto Vw Vh Cw Ch = [.alert notReadyMsg] := by
    simp [capturePhoto, h]
  refine ⟨he, ?_, ?_, ?_, ?_⟩ <;> simp [he]

/-- Witness for C3: capture invoked while `videoWidth = 0`. -/
theorem capturePhoto_not_ready_aborts_witness :
    capturePhoto 0 720 360 640 = [.alert notReadyMsg] :=
  (capturePhoto_not_ready_aborts 0 720 360 640 (Or.inl rfl)).1

theorem str_data_append (a b : String) : (a ++ b).data = a.data ++ b.data := rfl

/-- C4: with no discovered endpoint the upload fails immediately with a user
notice and issues no POST; otherwise exactly one POST is performed, the
attempt fails exactly when the status is non-success or the success body
carries an `erro` field, and on every failure the extracted error message
appears in a user notice while the minimal preview (not the full result view)
is rendered.  The hypothesis restricts success responses to JSON bodies, the
service contract of §6. -/
theorem analyzePhoto_failure_policy (u : String) (resp : HttpResponse)
    (hjson : respOk resp = true → isJsonBody resp.body = true) :
    (analyzePhoto none resp = [.alert apiUnavailableMsg] ∧
      UploadEffect.postUpload ∉ analyzePhoto none resp) ∧
    postCount (analyzePhoto (some u) resp) = 1 ∧
    (uploadFailed resp = true ↔ UploadEffect.showPreviewView ∈ analyzePhoto (some u) resp) ∧
    (uploadFailed resp = false →
      analyzePhoto (some u) resp = [UploadEffect.postUpload, UploadEffect.showFullResults]) ∧
    (uploadFailed resp = true →
      UploadEffect.showFullResults ∉ analyzePhoto (some u) resp ∧
      ∃ notice, UploadEffect.alert notice ∈ analyzePhoto (some u) resp ∧
        (extractedErrorMsg resp).data.IsInfix notice.data) := by
  obtain ⟨st, body⟩ := resp
  have hNone : analyzePhoto none ⟨st, body⟩ = [UploadEffect.alert apiUnavailableMsg] := rfl
  by_cases hok : respOk ⟨st, body⟩ = true
  · cases body with
    | jsonBody e s =>
      cases e with
      | some m =>
        have hE : analyzePhoto (some u) ⟨st, .jsonBody (some m) s⟩ =
            [.postUpload, .alert (analysisErrorHead ++ m), .showPreviewView] := by
          simp [analyzePhoto, hok]
        have hF : uploadFailed ⟨st, .jsonBody (some m) s⟩ = true := by
          simp [uploadFailed, erroOf]
        have hM : extractedErrorMsg ⟨st, .jsonBody (some m) s⟩ = m := by
          simp [extractedErrorMsg, hok, erroOf]
        refine ⟨⟨hNone, by simp [hNone]⟩, by simp [hE, postCount, isPost], ?_, ?_, ?_⟩
        · simp [hE, hF]
        · intro hf
          rw [hF] at hf
          cases hf
        · intro _
          refine ⟨by simp [hE], analysisErrorHead ++ m, by simp [hE], ?_⟩
          rw [hM]
          exact ⟨analysisErrorHead.data, [], by simp [str_data_append]⟩
      | none =>
        have hE : analyzePhoto (some u) ⟨st, .jsonBody none s⟩ =
            [.postUpload, .showFullResults] := by
          simp [analyzePhoto, hok]
        have hF : uploadFailed ⟨st, .jsonBody none s⟩ = false := by
          simp [uploadFailed, erroOf, hok]
        refine ⟨⟨hNone, by simp [hNone]⟩, by simp [hE, postCount, isPost], ?_, fun _ => hE, ?_⟩
        · simp [hE, hF]
        · intro hf
          rw [hF] at hf
          cases hf
    | rawText r => exact absurd (hjson hok) (by simp [isJsonBody])
  · have hok' : respOk ⟨st, body⟩ = false := by
      revert hok
      cases respOk ⟨st, body⟩ <;> simp
    have hE : analyzePhoto (some u) ⟨st, body⟩ =
        [.postUpload,
          .alert (analysisErrorHead ++ httpFailHead st ++ errorDetails body),
          .showPreviewView] := by
      simp [analyzePhoto, hok']
    have hF : uploadFailed ⟨st, body⟩ = true := by
      simp [uploadFailed, hok']
    have hM : extractedErrorMsg ⟨st, body⟩ = errorDetails body := by
      simp [extractedErrorMsg, hok']
    refine ⟨⟨hNone, by simp [hNone]⟩, by simp [hE, postCount, isPost], ?_, ?_, ?_⟩
    · simp [hE, hF]
    · intro hf
      rw [hF] at hf
      cases hf
    · intro _
      refine ⟨by simp [hE], analysisErrorHead ++ httpFailHead st ++ errorDetails body,
        by simp [hE], ?_⟩
      rw [hM]
      exact ⟨analysisErrorHead.data ++ (httpFailHead st).data, [],
        by simp [str_data_append]⟩

/-- Witness for C4, the spec's scenario: HTTP 500 with body
`{"erro": "face not found"}` renders the minimal preview. -/
theorem analyzePhoto_failure_policy_witness :
    UploadEffect.showPreviewView ∈
      analyzePhoto (some ("https://x")) ⟨500, .jsonBody (some ("face not found")) ("")⟩ :=
  ((analyzePhoto_failure_policy ("https://x")
      ⟨500, .jsonBody (some ("face not found")) ("")⟩ (by decide)).2.2.1).mp (by decide)

/-- C5: switching cameras never leaves two live streams: every stop of the old
stream's tracks and the clearing of the stream reference occur strictly before
the single new media-stream request, and each switch flips the facing mode
between `user` and `environment`. -/
theorem switchCamera_no_overlap (s : CamState) (ts : List Track)
    (h : s.currentStream = some ts) :
    switchCameraTrace s =
      (ts.map (fun t => CamAction.stopTrack t.id) ++ [CamAction.clearStreamRef]) ++
        [CamAction.requestStream (flipFacing s.facingMode)] ∧
    (∀ a ∈ ts.map (fun t => CamAction.stopTrack t.id) ++ [CamAction.clearStreamRef],
      ∀ m, a ≠ CamAction.requestStream m) ∧
    flipFacing userMode = envMode ∧
    flipFacing envMode = userMode ∧
    (∀ t ∈ stopAll ts, t.stopped = true) := by
  refine ⟨?_, ?_, ?_, ?_, ?_⟩
  · simp [switchCameraTrace, initCameraTrace, h]
  · intro a ha m
    rcases List.mem_append.mp ha with h1 | h2
    · rcases List.mem_map.mp h1 with ⟨t, _, rfl⟩
      simp
    · simp only [List.mem_singleton] at h2
      subst h2
      simp
  · simp [flipFacing]
  · simp [flipFacing, userMode, envMode]
  · intro t ht
    rcases List.mem_map.mp ht with ⟨t0, _, rfl⟩
    rfl

/-- Witness for C5: a front-facing stream with one live track. -/
theorem switchCamera_no_overlap_witness :
    switchCameraTrace ⟨some [⟨0, false⟩], userMode⟩ =
      [CamAction.stopTrack 0, CamAction.clearStreamRef, CamAction.requestStream envMode] := by
  have h := (switchCamera_no_overlap ⟨some [⟨0, false⟩], userMode⟩ [⟨0, false⟩] rfl).1
  simpa [flipFacing, userMode, envMode] using h

/-- C6: the cache worker passes through every request that is not GET, hits
the upload path, or is cross-origin (no interception, no cache write);
intercepted requests are served cache-first (a hit returns the cached
response for every possible network state, so no network fetch occurs); on a
miss, a network response is returned and written to the cache exactly when its
status is 200 (the worker's success check); and if the network fetch fails,
the predetermined offline fallback document is returned. -/
theorem handleFetch_policy (locOrigin : String) (cacheMatch : String → Option SWResponse)
    (req : SWRequest) :
    ((req.method ≠ getMethod ∨ containsSubstr req.url uploadPath = true ∨
        req.origin ≠ locOrigin) →
      ∀ net, handleFetch locOrigin cacheMatch req net =
        { outcome := .passThrough, cachePut := none }) ∧
    (intercepted locOrigin req →
      ∀ r, cacheMatch req.url = some r →
        ∀ net, handleFetch locOrigin cacheMatch req net =
          { outcome := .respond r, cachePut := none }) ∧
    (intercepted locOrigin req → cacheMatch req.url = none →
      ∀ r, handleFetch locOrigin cacheMatch req (NetworkResult.ok r) =
        { outcome := .respond r
          cachePut := if r.status = 200 then some (CACHE_NAME, req.url, r) else none }) ∧
    (intercepted locOrigin req → cacheMatch req.url = none →
      handleFetch locOrigin cacheMatch req NetworkResult.failure =
        { outcome := .fallback (cacheMatch OFFLINE_URL), cachePut := none }) := by
  have hneg : intercepted locOrigin req →
      ¬(req.method ≠ getMethod ∨ containsSubstr req.url uploadPath = true ∨
        req.origin ≠ locOrigin) := by
    rintro ⟨h1, h2, h3⟩ (hd | hd | hd)
    · exact hd h1
    · rw [h2] at hd
      cases hd
    · exact hd h3
  refine ⟨?_, ?_, ?_, ?_⟩
  · intro hD net
    unfold handleFetch
    rw [if_pos hD]
  · intro hI r hr net
    unfold handleFetch
    rw [if_neg (hneg hI), hr]
  · intro hI hr r
    unfold handleFetch
    rw [if_neg (hneg hI), hr]
  · intro hI hr
    unfold handleFetch
    rw [if_neg (hneg hI), hr]

/-- Witness for C6: a same-origin GET for a stylesheet, cache miss, network
returns 200; it is served and written through into the current store. -/
theorem handleFetch_policy_witness :
    handleFetch ("https://app") (fun _ => none)
        { method := ("GET"), url := ("/style.css"), origin := ("https://app") }
        (NetworkResult.ok { status := 200 }) =
      { outcome := .respond { status := 200 }
        cachePut := some (CACHE_NAME, ("/style.css"), { status := 200 }) } := by
  have h := (handleFetch_policy ("https://app") (fun _ => none)
      { method := ("GET"), url := ("/style.css"), origin := ("https://app") }).2.2.1
    (by constructor
        · rfl
        · exact ⟨by decide, rfl⟩)
    rfl { status := 200 }
  simpa using h

/-- Every element of a nodup list that contains `CACHE_NAME` and is filtered
to the names equal to `CACHE_NAME` is that single name. -/
theorem activateRemaining_eq (names : List String) (hnd : names.Nodup)
    (hm : CACHE_NAME ∈ names) : activateRemaining names = [CACHE_NAME] := by
  induction names with
  | nil => cases hm
  | cons a t ih =>
    rw [List.nodup_cons] at hnd
    by_cases ha : a = CACHE_NAME
    · subst ha
      have h0 : List.filter (fun n => n == CACHE_NAME) t = [] := by
        rw [List.filter_eq_nil_iff]
        intro b hb
        simp only [beq_iff_eq]
        exact fun hba => hnd.1 (hba ▸ hb)
      simp [activateRemaining, List.filter_cons, h0]
    · have hm' : CACHE_NAME ∈ t := by
        rcases List.mem_cons.mp hm with h | h
        · exact absurd h.symm ha
        · exact h
      have ht := ih hnd.2 hm'
      simpa [activateRemaining, List.filter_cons, ha] using ht

/-- C7: on activation every cache store whose name differs from the current
version name is deleted, so exactly the current name survives; and both the
install-time writes and the fetch handler's lazy write-through target that
same current store. -/
theorem activate_single_current_cache (names : List String)
    (hnd : names.Nodup) (hmem : CACHE_NAME ∈ names) :
    activateRemaining names = [CACHE_NAME] ∧
    (∀ n ∈ activateDeletes names, n ≠ CACHE_NAME) ∧
    (∀ p ∈ installPuts, p.1 = CACHE_NAME) ∧
    (∀ loc cm req net s u r,
      (handleFetch loc cm req net).cachePut = some (s, u, r) → s = CACHE_NAME) := by
  refine ⟨activateRemaining_eq names hnd hmem, ?_, ?_, ?_⟩
  · intro n hn
    rw [activateDeletes, List.mem_filter] at hn
    simpa using hn.2
  · intro p hp
    rcases List.mem_map.mp hp with ⟨u, _, rfl⟩
    rfl
  · intro loc cm req net s u r h
    by_cases hD : (req.method ≠ getMethod ∨ containsSubstr req.url uploadPath = true ∨
        req.origin ≠ loc)
    · unfold handleFetch at h
      rw [if_pos hD] at h
      exact Option.noConfusion h
    · unfold handleFetch at h
      rw [if_neg hD] at h
      cases hc : cm req.url with
      | some r0 =>
        rw [hc] at h
        exact Option.noConfusion h
      | none =>
        rw [hc] at h
        cases net with
        | failure => exact Option.noConfusion h
        | ok r1 =>
          have h' : (if r1.status = 200 then some (CACHE_NAME, req.url, r1) else none) =
              some (s, u, r) := h
          by_cases h200 : r1.status = 200
          · rw [if_pos h200] at h'
            injection h' with h2
            rw [Prod.mk.injEq] at h2
            exact h2.1.symm
          · rw [if_neg h200] at h'
            exact Option.noConfusion h'

/-- Witness for C7: activating with one stale store and the current one
leaves exactly the current one. -/
theorem activate_single_current_cache_witness :
    activateRemaining [("face-capture-v1"), CACHE_NAME] = [CACHE_NAME] :=
  (activate_single_current_cache [("face-capture-v1"), CACHE_NAME]
    (by decide) (by decide)).1

/-- Revocation invariant of a view-owned object URL. -/
theorem viewStep_inv (step : ViewState → ViewClick → ViewState)
    (hstep : ∀ s e, s.revoked = (if s.visible then 0 else 1) →
      (step s e).revoked = (if (step s e).visible then 0 else 1))
    (es : List ViewClick) (s : ViewState)
    (hs : s.revoked = (if s.visible then 0 else 1)) :
    (es.foldl step s).revoked = (if (es.foldl step s).visible then 0 else 1) := by
  induction es generalizing s with
  | nil => exact hs
  | cons e t ih => exact ih (step s e) (hstep s e hs)

theorem analysisViewStep_inv (s : ViewState) (e : ViewClick)
    (hs : s.revoked = (if s.visible then 0 else 1)) :
    (analysisViewStep s e).revoked = (if (analysisViewStep s e).visible then 0 else 1) := by
  by_cases hv : s.visible
  · rw [if_pos hv] at hs
    cases e <;> simp [analysisViewStep, hv, hs]
  · rw [if_neg hv] at hs
    simp [analysisViewStep, hv, hs]

theorem previewViewStep_inv (s : ViewState) (e : ViewClick)
    (hs : s.revoked = (if s.visible then 0 else 1)) :
    (previewViewStep s e).revoked = (if (previewViewStep s e).visible then 0 else 1) := by
  by_cases hv : s.visible
  · rw [if_pos hv] at hs
    cases e <;> simp [previewViewStep, hv, hs]
  · rw [if_neg hv] at hs
    simp [previewViewStep, hv, hs]

/-- C8: for any sequence of button clicks on the full analysis view or on the
minimal preview view, the view's object URL is revoked exactly once when the
view has been dismissed and zero times while it is still shown — never leaked
past a dismissal and never revoked twice. -/
theorem objectUrl_revoked_exactly_once (es : List ViewClick) :
    (runView analysisViewStep es).revoked =
      (if (runView analysisViewStep es).visible then 0 else 1) ∧
    (runView previewViewStep es).revoked =
      (if (runView previewViewStep es).visible then 0 else 1) ∧
    (runView analysisViewStep es).revoked ≤ 1 ∧
    (runView previewViewStep es).revoked ≤ 1 := by
  have h1 := viewStep_inv analysisViewStep analysisViewStep_inv es ⟨true, 0⟩ (by simp)
  have h2 := viewStep_inv previewViewStep previewViewStep_inv es ⟨true, 0⟩ (by simp)
  refine ⟨h1, h2, ?_, ?_⟩
  · rw [runView, h1]
    split <;> simp
  · rw [runView, h2]
    split <;> simp

/-- C9 counterexample: at `Date.now() = 1730000000000` the minimal preview's
download button names the file `face-capture-1730000000000.png`, not
`analise-facial-1730000000000.png` as the claim states. -/
theorem previewDownloadName_cex :
    previewDownloadName 1730000000000 = "face-capture-1730000000000.png" ∧
    previewDownloadName 1730000000000 ≠ "analise-facial-1730000000000.png" := by
  constructor <;> decide

/-- C9 amended: the full result view's download button and the text report
use `analise-facial-<unix-ms>.{png,txt}`, but the minimal preview's download
button uses `face-capture-<unix-ms>.png`; the two image names never
coincide. -/
theorem download_file_names (nowMs : Nat) :
    downloadImageName nowMs = analiseFacialHead ++ toString nowMs ++ pngExt ∧
    saveReportName nowMs = analiseFacialHead ++ toString nowMs ++ txtExt ∧
    previewDownloadName nowMs = faceCaptureHead ++ toString nowMs ++ pngExt ∧
    previewDownloadName nowMs ≠ downloadImageName nowMs := by
  refine ⟨rfl, rfl, rfl, ?_⟩
  intro h
  have hd := congrArg (fun s => s.data.head?) h
  simp [previewDownloadName, downloadImageName, faceCaptureHead, analiseFacialHead,
    str_data_append] at hd

/-- C10: if either required DOM element is missing, the constructor only logs
the error and returns: no event listeners are attached, no service-worker
registration is performed by the controller, and no endpoint health check is
issued. -/
theorem constructor_missing_dom_degrades (hasVideo hasCanvas : Bool)
    (h : hasVideo = false ∨ hasCanvas = false) :
    constructorEffects hasVideo hasCanvas = [.consoleError missingDomMsg] ∧
    InitEffect.attachListeners ∉ constructorEffects hasVideo hasCanvas ∧
    InitEffect.registerServiceWorker ∉ constructorEffects hasVideo hasCanvas ∧
    InitEffect.detectApiUrl ∉ constructorEffects hasVideo hasCanvas := by
  have he : constructorEffects hasVideo hasCanvas = [.consoleError missingDomMsg] := by
    rcases h with h | h <;> subst h <;> simp [constructorEffects]
  refine ⟨he, ?_, ?_, ?_⟩ <;> simp [he]

/-- Witness for C10: missing video element. -/
theorem constructor_missing_dom_degrades_witness :
    constructorEffects false true = [.consoleError missingDomMsg] :=
  (constructor_missing_dom_degrades false true (Or.inl rfl)).1

end FaceCapture
